import Mathlib

/-!
Verification of the Autobot_vsoul orchestration core (`src/main.py`) and the
market-data fetchers (`src/exchange/binance_client.py`,
`src/utility/data_fetcher.py`) against its specification.

Shallow embedding conventions:
* Python exceptions are modelled by `Res α` (`ok` = normal return, `exn msg` =
  a raised exception carrying its message).  A `try/except` block is a `match`
  on the `Res` of the awaited call.
* The collaborator objects used by `TradingBot` (`DataCollector`,
  `DataStorage`, the two indicator engines, `ConsolidatedStrategy`,
  `TelegramNotifier`) are not part of this repository's sources; following the
  spec's section 6 they are external, so each collaborator call is modelled by
  its outcome, supplied in an `Env` record.  The orchestration code of
  `main.py` is translated literally over those outcomes.
* Observable side effects (logger calls, store calls, notifier calls, warnings)
  are recorded in an event trace (`List Ev`), in program order.
* Python floats that the orchestrator only ever formats (`price` with
  `"{:.4f}"`, `confidence` with `"{:.2f}"`) are modelled as exact fixed-point
  naturals: a `Money` is a number of ten-thousandths, a confidence a number of
  hundredths.  No claim performs float arithmetic, only rendering.
* `datetime` values are modelled by the `Timestamp` record, with
  `strftime_ymd_hms` translating `strftime('%Y-%m-%d %H:%M:%S')`.
-/

set_option maxRecDepth 100000

/-- Outcome of a Python call: normal return or a raised exception
(carrying the exception's message, as interpolated by the handlers). -/
inductive Res (α : Type) where
  | ok (a : α) : Res α
  | exn (msg : String) : Res α
deriving DecidableEq, Repr

/-- A `datetime`-like value; only the fields used by
`strftime('%Y-%m-%d %H:%M:%S')` are represented. -/
structure Timestamp where
  year : Nat
  month : Nat
  day : Nat
  hour : Nat
  minute : Nat
  second : Nat
deriving DecidableEq, Repr

/-- Fixed-point monetary value, in ten-thousandths (models a Python float whose
only use in the orchestrator is rendering with `"{:.4f}"`). -/
abbrev Money := Nat

/-- One row of the market-data frame returned by the collector.  `main.py` only
reads `data['close'].iloc[-1]`, `data.index[-1]` and `len(data)`, so a row is
its index timestamp plus the OHLCV fields. -/
structure MarketBar where
  ts : Timestamp
  open_ : Money
  high : Money
  low : Money
  close : Money
  volume : Money
deriving DecidableEq, Repr

/-- The strategy's signal dict.  `action`, `confidence` and `strategy_name` are
accessed with `signal[...]` (mandatory); the four optional entries are accessed
with `signal.get(key, 'N/A')`, so they are `Option String` holding the string
rendering Python would interpolate.  `confidence` is in hundredths of a
percent (fixed-point model of the float rendered with `"{:.2f}"`). -/
structure PySignal where
  action : String
  confidence : Nat
  strategy_name : String
  tdi_signal : Option String
  bollinger_signal : Option String
  stop_loss : Option String
  take_profit : Option String
deriving DecidableEq, Repr

/-- Per-symbol collaborator outcomes for one `collect_and_analyze_data` run.
Each field is the outcome of the corresponding awaited call in `main.py`. -/
structure Env where
  /-- `data_collector.get_market_data(...)`: raises, or returns `None` or a frame. -/
  fetch : Res (Option (List MarketBar))
  /-- `data_storage.store_market_data(symbol, data)` -/
  storeData : Res Unit
  /-- `super_tdi.calculate(data)` (result value opaque to the orchestrator) -/
  tdi : Res Unit
  /-- `super_bollinger.calculate(data)` -/
  boll : Res Unit
  /-- `strategy.generate_signal(...)`: `none` models a falsy result. -/
  strat : Res (Option PySignal)
  /-- `data_storage.store_signal(symbol, signal, timestamp)` -/
  storeSignal : Res Unit
  /-- `telegram_notifier.send_message(message.strip())` in `send_signal_notification` -/
  notifySend : Res Unit
  /-- `telegram_notifier.send_message(f"❌ Error processing {symbol}: ...")`
  in the `except` clause of `collect_and_analyze_data` -/
  alertSend : Res Unit
deriving DecidableEq, Repr

/-- Observable events of the per-symbol pipeline, in program order. -/
inductive Ev where
  | fetchCall
  | warnInsufficient (symbol : String)
  | storeDataCall
  | tdiCall
  | bollCall
  | stratCall
  | logSignalInfo (symbol : String)
  | storeSignalCall
  | notifyAttempt (text : String)
  | logNotifyError (msg : String)
  | logHandleError (symbol : String) (msg : String)
  | logErrorFor (symbol : String) (msg : String)
  | alertAttempt (symbol : String)
  | sleepBetweenSymbols
deriving DecidableEq, Repr

/-! ### Notification formatting (`TradingBot.send_signal_notification`) -/

/-- Line 129: `"🟢" if signal['action'] == 'BUY' else "🔴" if signal['action'] == 'SELL' else "🟡"`. -/
def action_emoji (action : String) : String :=
  if action = "BUY" then "🟢" else if action = "SELL" then "🔴" else "🟡"

/-- Zero-padded two-digit rendering (the `%m/%d/%H/%M/%S` fields of `strftime`,
and the fractional part of `"{:.2f}"`). -/
def pad2 (n : Nat) : String :=
  String.mk [Nat.digitChar (n / 10 % 10), Nat.digitChar (n % 10)]

/-- Zero-padded four-digit rendering (the `%Y` field of `strftime`, and the
fractional part of `"{:.4f}"`). -/
def pad4 (n : Nat) : String :=
  String.mk [Nat.digitChar (n / 1000 % 10), Nat.digitChar (n / 100 % 10),
    Nat.digitChar (n / 10 % 10), Nat.digitChar (n % 10)]

/-- `f"{price:.4f}"` over the fixed-point `Money` model: integer part, a dot,
then exactly four fractional digits. -/
def format_money4 (p : Money) : String :=
  toString (p / 10000) ++ "." ++ pad4 (p % 10000)

/-- `f"{confidence:.2f}"` over the fixed-point hundredths model. -/
def format_pct2 (c : Nat) : String :=
  toString (c / 100) ++ "." ++ pad2 (c % 100)

/-- `timestamp.strftime('%Y-%m-%d %H:%M:%S')`. -/
def strftime_ymd_hms (t : Timestamp) : String :=
  pad4 t.year ++ "-" ++ pad2 t.month ++ "-" ++ pad2 t.day ++ " " ++
    pad2 t.hour ++ ":" ++ pad2 t.minute ++ ":" ++ pad2 t.second

/-- The template text between the action emoji and the final
`signal.get('take_profit', 'N/A')` field of the f-string of lines 131–146
(string concatenation is associative, so the template is split here only to
name its two variable ends). -/
def message_mid (symbol : String) (sig : PySignal) (price : Money)
    (ts : Timestamp) : String :=
  " **" ++ sig.action ++ " SIGNAL**\n📊 Symbol: " ++
    symbol ++ "\n💰 Price: $" ++ format_money4 price ++ "\n⏰ Time: " ++
    strftime_ymd_hms ts ++ "\n🎯 Confidence: " ++ format_pct2 sig.confidence ++
    "%\n📈 Strategy: " ++ sig.strategy_name ++
    "\n\n**Indicator Analysis:**\n• TDI: " ++ sig.tdi_signal.getD "N/A" ++
    "\n• Bollinger: " ++ sig.bollinger_signal.getD "N/A" ++
    "\n\n**Risk Management:**\n• Stop Loss: $" ++ sig.stop_loss.getD "N/A" ++
    "\n• Take Profit: $"

/-- The body of the f-string of lines 131–146 between its leading `"\n"` and
its trailing `"\n"` plus the 12 spaces of indentation before the closing
quotes (both stripped by `.strip()` on line 148). -/
def message_core (symbol : String) (sig : PySignal) (price : Money)
    (ts : Timestamp) : String :=
  action_emoji sig.action ++
    (message_mid symbol sig price ts ++ sig.take_profit.getD "N/A")

/-- The full f-string `message` of lines 131–146: a leading newline, the body,
then the newline and 12-space indentation preceding the closing quotes. -/
def raw_message (symbol : String) (sig : PySignal) (price : Money)
    (ts : Timestamp) : String :=
  "\n" ++ message_core symbol sig price ts ++ "\n            "

/-- Python `str.strip()`: drop whitespace from both ends. -/
def pyStrip (s : String) : String :=
  String.mk (((s.data.dropWhile Char.isWhitespace).reverse.dropWhile
    Char.isWhitespace).reverse)

/-- The text actually passed to `send_message` on line 148: `message.strip()`. -/
def send_signal_text (symbol : String) (sig : PySignal) (price : Money)
    (ts : Timestamp) : String :=
  pyStrip (raw_message symbol sig price ts)

/-- `send_signal_notification`, with the wall clock at the moment of sending
made explicit as `now`.  The source builds the message from its four arguments
only and never reads the clock, so `now` is unused; the `try/except` logs a
notifier failure and returns normally either way. -/
def send_signal_notification (now : Timestamp) (env : Env) (symbol : String)
    (sig : PySignal) (price : Money) (ts : Timestamp) : List Ev :=
  let _ := now
  let text := send_signal_text symbol sig price ts
  match env.notifySend with
  | .ok _ => [Ev.notifyAttempt text]
  | .exn e => [Ev.notifyAttempt text, Ev.logNotifyError e]

/-! ### Signal handling and the per-symbol pipeline -/

/-- `TradingBot.handle_signal` (lines 106–124).  One `try` block: extract
`current_price`/`timestamp` from the last row (an empty frame raises
`IndexError`, caught by the same `except`), log, store the signal, then send
the notification.  The `except` only logs, so the function always returns
normally — but a `store_signal` failure skips the notification. -/
def handle_signal (now : Timestamp) (env : Env) (symbol : String)
    (sig : PySignal) (data : List MarketBar) : List Ev :=
  match data.getLast? with
  | none => [Ev.logHandleError symbol "IndexError"]
  | some bar =>
    Ev.logSignalInfo symbol ::
      match env.storeSignal with
      | .exn e => [Ev.storeSignalCall, Ev.logHandleError symbol e]
      | .ok _ => Ev.storeSignalCall ::
          send_signal_notification now env symbol sig bar.close bar.ts

/-- The `except` clause of `collect_and_analyze_data` (lines 100–104): log the
error with the symbol, then `await telegram_notifier.send_message(...)` —
an unguarded call, so if the alert itself raises, that exception propagates
out of `collect_and_analyze_data`. -/
def error_boundary (env : Env) (symbol : String) (e : String)
    (prior : List Ev) : Res Unit × List Ev :=
  match env.alertSend with
  | .ok _ => (.ok (), prior ++ [Ev.logErrorFor symbol e, Ev.alertAttempt symbol])
  | .exn e2 => (.exn e2, prior ++ [Ev.logErrorFor symbol e, Ev.alertAttempt symbol])

/-- `TradingBot.collect_and_analyze_data` (lines 71–104), translated step by
step over the collaborator outcomes in `env`. -/
def collect_and_analyze_data (now : Timestamp) (env : Env) (symbol : String)
    (min_data_points : Nat) : Res Unit × List Ev :=
  match env.fetch with
  | .exn e => error_boundary env symbol e [Ev.fetchCall]
  | .ok data? =>
    match data? with
    | none => (.ok (), [Ev.fetchCall, Ev.warnInsufficient symbol])
    | some data =>
      if data.length < min_data_points then
        (.ok (), [Ev.fetchCall, Ev.warnInsufficient symbol])
      else
        match env.storeData with
        | .exn e => error_boundary env symbol e [Ev.fetchCall, Ev.storeDataCall]
        | .ok _ =>
          match env.tdi with
          | .exn e => error_boundary env symbol e
              [Ev.fetchCall, Ev.storeDataCall, Ev.tdiCall]
          | .ok _ =>
            match env.boll with
            | .exn e => error_boundary env symbol e
                [Ev.fetchCall, Ev.storeDataCall, Ev.tdiCall, Ev.bollCall]
            | .ok _ =>
              match env.strat with
              | .exn e => error_boundary env symbol e
                  [Ev.fetchCall, Ev.storeDataCall, Ev.tdiCall, Ev.bollCall,
                    Ev.stratCall]
              | .ok none =>
                (.ok (), [Ev.fetchCall, Ev.storeDataCall, Ev.tdiCall,
                  Ev.bollCall, Ev.stratCall])
              | .ok (some sig) =>
                (.ok (), [Ev.fetchCall, Ev.storeDataCall, Ev.tdiCall,
                  Ev.bollCall, Ev.stratCall] ++
                    handle_signal now env symbol sig data)

/-- `TradingBot.run_analysis_cycle` (lines 153–157): iterate the configured
symbols in order; a raised exception aborts the `for` loop and propagates.
The `asyncio.sleep(1)` after each symbol is recorded in the trace. -/
def run_analysis_cycle (now : Timestamp) (min_data_points : Nat) :
    List (String × Env) → Res Unit × List (String × List Ev)
  | [] => (.ok (), [])
  | (s, env) :: rest =>
    match collect_and_analyze_data now env s min_data_points with
    | (.exn e, tr) => (.exn e, [(s, tr)])
    | (.ok _, tr) =>
      let tail := run_analysis_cycle now min_data_points rest
      (tail.1, (s, tr ++ [Ev.sleepBetweenSymbols]) :: tail.2)

/-! ### Trace counters used by the claims -/

/-- Number of notifier signal-notification attempts in a trace. -/
def countNotify (tr : List Ev) : Nat :=
  tr.countP (fun ev => match ev with | Ev.notifyAttempt _ => true | _ => false)

/-- Number of best-effort error-alert attempts in a trace. -/
def countAlert (tr : List Ev) : Nat :=
  tr.countP (fun ev => match ev with | Ev.alertAttempt _ => true | _ => false)

/-- Number of `store_signal` calls in a trace. -/
def countStoreSignal (tr : List Ev) : Nat :=
  tr.countP (fun ev => match ev with | Ev.storeSignalCall => true | _ => false)

/-- Number of insufficient-data warnings in a trace. -/
def countWarn (tr : List Ev) : Nat :=
  tr.countP (fun ev => match ev with | Ev.warnInsufficient _ => true | _ => false)

/-- Number of `store_market_data` calls in a trace. -/
def countStoreData (tr : List Ev) : Nat :=
  tr.countP (fun ev => match ev with | Ev.storeDataCall => true | _ => false)

/-- Number of indicator or strategy invocations in a trace. -/
def countIndicatorStrategy (tr : List Ev) : Nat :=
  tr.countP (fun ev => match ev with
    | Ev.tdiCall => true | Ev.bollCall => true | Ev.stratCall => true
    | _ => false)

/-! ### The scheduler loop (`TradingBot.run`, lines 159–183)

The wall-clock time is external: each scheduled cycle carries its measured
duration `elapsed` (the float `(datetime.now() - start_time).total_seconds()`,
modelled as an exact rational) together with its per-symbol collaborator
outcomes.  `stopDuring` records whether the running flag was cleared at some
point while that cycle was executing (e.g. by `shutdown()` setting
`self.running = False`); `run` consults the flag only in the `while` condition,
never inside a cycle. -/

/-- One scheduled cycle of the environment. -/
structure CycleEnv where
  envs : List (String × Env)
  elapsed : ℚ
  stopDuring : Bool
deriving DecidableEq, Repr

/-- Observable outcome of one completed loop iteration. -/
structure CycleOut where
  symbols : List (String × List Ev)
  /-- The amount actually slept at end of cycle (0 when the `else` branch ran). -/
  sleepFor : ℚ
  /-- Number of overrun warnings logged by this iteration. -/
  overrunWarns : Nat
deriving DecidableEq, Repr

/-- `TradingBot.run` from an arbitrary flag state: while the running flag is
true, run a full analysis cycle, then compute
`sleep_time = max(0, analysis_interval - cycle_duration)` and either sleep for
it (`if sleep_time > 0`) or log the overrun warning.  If the cycle raised, the
`except` of `run` logs, attempts a best-effort alert and re-raises, ending the
loop (no cycle outcome is produced for the aborted iteration). -/
def runFrom (now : Timestamp) (analysis_interval : ℚ) (min_data_points : Nat) :
    Bool → List CycleEnv → Res Unit × List CycleOut
  | _, [] => (.ok (), [])
  | running, c :: rest =>
    if running then
      match run_analysis_cycle now min_data_points c.envs with
      | (.exn e, _) => (.exn e, [])
      | (.ok _, trs) =>
        let sleep_time := max 0 (analysis_interval - c.elapsed)
        let out : CycleOut :=
          if 0 < sleep_time then ⟨trs, sleep_time, 0⟩ else ⟨trs, 0, 1⟩
        let tail := runFrom now analysis_interval min_data_points
          (running && !c.stopDuring) rest
        (tail.1, out :: tail.2)
    else (.ok (), [])

/-! ### Shutdown (`TradingBot.shutdown`, lines 185–197) -/

/-- Collaborator outcomes for one `shutdown()` invocation. -/
structure ShutdownEnv where
  /-- `telegram_notifier.send_message(f"🛑 Trading Bot Stopped at ...")` -/
  notifyStop : Res Unit
  /-- `telegram_notifier.shutdown()` -/
  notifierClose : Res Unit
  /-- `data_storage.close()` -/
  storeClose : Res Unit
deriving DecidableEq, Repr

/-- Observable events of `shutdown()`. -/
inductive SEv where
  | logShuttingDown
  | setRunningFalse
  | notifyStopCall (text : String)
  | notifierCloseCall
  | storeCloseCall
  | logShutdownError (msg : String)
deriving DecidableEq, Repr

/-- The shutdown notification text of line 192 (it interpolates the wall clock
at the moment of shutdown). -/
def shutdown_message (now : Timestamp) : String :=
  "🛑 Trading Bot Stopped at " ++ strftime_ymd_hms now

/-- `TradingBot.shutdown` (lines 185–197): log, set `self.running = False`,
then one `try` block awaiting the stop notification, the notifier close and
the data-store close in order; the single `except` logs the first failure and
returns normally, abandoning the remaining steps. -/
def shutdown (env : ShutdownEnv) (now : Timestamp) : Res Unit × List SEv :=
  let pre := [SEv.logShuttingDown, SEv.setRunningFalse]
  match env.notifyStop with
  | .exn e => (.ok (), pre ++ [SEv.notifyStopCall (shutdown_message now),
      SEv.logShutdownError e])
  | .ok _ =>
    match env.notifierClose with
    | .exn e => (.ok (), pre ++ [SEv.notifyStopCall (shutdown_message now),
        SEv.notifierCloseCall, SEv.logShutdownError e])
    | .ok _ =>
      match env.storeClose with
      | .exn e => (.ok (), pre ++ [SEv.notifyStopCall (shutdown_message now),
          SEv.notifierCloseCall, SEv.storeCloseCall, SEv.logShutdownError e])
      | .ok _ => (.ok (), pre ++ [SEv.notifyStopCall (shutdown_message now),
          SEv.notifierCloseCall, SEv.storeCloseCall])

/-- `shutdown()` seen as a transition on the bot's `running` flag: the body
never reads the flag (there is no already-shut-down guard), it only writes
`False`; the produced events are those of `shutdown`. -/
def shutdownFrom (running : Bool) (env : ShutdownEnv) (now : Timestamp) :
    Bool × (Res Unit × List SEv) :=
  let _ := running
  (false, shutdown env now)

/-- The events of two successive `shutdown()` invocations, the second starting
from the flag state the first left behind. -/
def twoShutdowns (env : ShutdownEnv) (now1 now2 : Timestamp) : List SEv :=
  let first := shutdownFrom true env now1
  let second := shutdownFrom first.1 env now2
  (first.2).2 ++ (second.2).2

/-- Number of shutdown-notification attempts in a shutdown trace. -/
def countNotifyStop (tr : List SEv) : Nat :=
  tr.countP (fun ev => match ev with | SEv.notifyStopCall _ => true | _ => false)

/-- Number of data-store close attempts in a shutdown trace. -/
def countStoreClose (tr : List SEv) : Nat :=
  tr.countP (fun ev => match ev with | SEv.storeCloseCall => true | _ => false)

/-- Number of notifier close attempts in a shutdown trace. -/
def countNotifierClose (tr : List SEv) : Nat :=
  tr.countP (fun ev => match ev with | SEv.notifierCloseCall => true | _ => false)

/-! ### The interrupt handler (`main.signal_handler`, lines 204–208) -/

/-- Synchronous actions the installed interrupt handler can perform. -/
inductive HandlerAct where
  | printReceived (signum : Nat)
  | scheduleShutdownTask
  | setRunningFlagFalse
  | sysExit (code : Nat)
deriving DecidableEq, Repr

/-- `signal_handler(signum, frame)`: print, schedule `bot.shutdown()` as a
fire-and-forget task when the closed-over `bot` is already assigned, then call
`sys.exit(0)` — which raises `SystemExit` at the interrupted point, terminating
the loop immediately.  The handler never assigns `self.running` itself. -/
def signal_handler (botAssigned : Bool) (signum : Nat) : List HandlerAct :=
  [HandlerAct.printReceived signum] ++
    (if botAssigned then [HandlerAct.scheduleShutdownTask] else []) ++
    [HandlerAct.sysExit 0]

/-! ### The fetchers (`src/exchange/binance_client.py`,
`src/utility/data_fetcher.py`)

Both wrap `exchange.fetch_ohlcv` in a `try` returning `None` on any exception;
on success they build a DataFrame with columns
`['timestamp','open','high','low','close','volume']`, convert the timestamp
column with `pd.to_datetime(..., unit='ms')` and make it the index. -/

/-- One raw OHLCV row as returned by `ccxt`'s `fetch_ohlcv`:
`[timestamp_ms, open, high, low, close, volume]`. -/
structure RawBar where
  timestamp_ms : Int
  open_ : ℚ
  high : ℚ
  low : ℚ
  close : ℚ
  volume : ℚ
deriving DecidableEq, Repr

/-- A pandas timestamp produced by `pd.to_datetime(x, unit='ms')`. -/
structure PdTimestamp where
  ms : Int
deriving DecidableEq, Repr

/-- `pd.to_datetime(x, unit='ms')` on one value. -/
def pd_to_datetime_ms (x : Int) : PdTimestamp := ⟨x⟩

/-- The DataFrame the fetchers return: the timestamp index plus the five named
value columns. -/
structure PdDataFrame where
  index : List PdTimestamp
  columns : List String
  rows : List (List ℚ)
deriving DecidableEq, Repr

namespace BinanceClient

/-- `BinanceClient.get_ohlcv` (lines 18–28): on any exception from the
exchange call, print and return `None`; otherwise build the indexed frame. -/
def get_ohlcv (fetched : Res (List RawBar)) : Option PdDataFrame :=
  match fetched with
  | .exn _ => none
  | .ok ohlcv =>
    some { index := ohlcv.map (fun b => pd_to_datetime_ms b.timestamp_ms),
           columns := ["open", "high", "low", "close", "volume"],
           rows := ohlcv.map (fun b => [b.open_, b.high, b.low, b.close, b.volume]) }

end BinanceClient

namespace DataFetcher

/-- `DataFetcher.get_data` (lines 14–23): textually the same logic as
`BinanceClient.get_ohlcv`. -/
def get_data (fetched : Res (List RawBar)) : Option PdDataFrame :=
  match fetched with
  | .exn _ => none
  | .ok ohlcv =>
    some { index := ohlcv.map (fun b => pd_to_datetime_ms b.timestamp_ms),
           columns := ["open", "high", "low", "close", "volume"],
           rows := ohlcv.map (fun b => [b.open_, b.high, b.low, b.close, b.volume]) }

end DataFetcher

/-! ### Small observation helpers and concrete fixtures -/

/-- Number of characters after the last `'.'` of a string (its rendered
decimal places). -/
def decimals_after_dot (s : String) : Nat :=
  (s.data.reverse.takeWhile (fun ch => ch != '.')).length

/-- A concrete wall-clock instant used by concrete evaluations. -/
def t0 : Timestamp := ⟨2026, 10, 12, 1, 2, 3⟩

/-- A later wall-clock instant. -/
def t1 : Timestamp := ⟨2026, 10, 12, 1, 7, 3⟩

/-- A concrete market bar with close price 123.4567. -/
def bar0 : MarketBar := ⟨t0, 1234560, 1234570, 1234550, 1234567, 50000⟩

/-- A concrete BUY signal with confidence 72.50 and all optional fields absent. -/
def sigBuy : PySignal :=
  ⟨"BUY", 7250, "ConsolidatedStrategy", none, none, none, none⟩

/-- Collaborator outcomes where every call succeeds and the fetch returns
`None` (no data). -/
def okEnvNoData : Env :=
  { fetch := .ok none, storeData := .ok (), tdi := .ok (), boll := .ok (),
    strat := .ok none, storeSignal := .ok (), notifySend := .ok (),
    alertSend := .ok () }

/-- Collaborator outcomes where every call succeeds, the fetch returns one bar
and the strategy produces `sigBuy`. -/
def okEnvSignal : Env :=
  { fetch := .ok (some [bar0]), storeData := .ok (), tdi := .ok (),
    boll := .ok (), strat := .ok (some sigBuy), storeSignal := .ok (),
    notifySend := .ok (), alertSend := .ok () }

/-- Collaborator outcomes where the fetch raises and the best-effort error
alert in the `except` clause also raises. -/
def envFetchAlertFail : Env :=
  { fetch := .exn "network unreachable", storeData := .ok (), tdi := .ok (),
    boll := .ok (), strat := .ok none, storeSignal := .ok (),
    notifySend := .ok (), alertSend := .exn "telegram down" }

/-- Collaborator outcomes where the fetch raises but the best-effort error
alert succeeds. -/
def envFetchFailAlertOk : Env :=
  { fetch := .exn "rate limited", storeData := .ok (), tdi := .ok (),
    boll := .ok (), strat := .ok none, storeSignal := .ok (),
    notifySend := .ok (), alertSend := .ok () }

/-- Collaborator outcomes where everything succeeds except `store_signal`. -/
def envStoreSignalFail : Env :=
  { fetch := .ok (some [bar0]), storeData := .ok (), tdi := .ok (),
    boll := .ok (), strat := .ok (some sigBuy), storeSignal := .exn "db down",
    notifySend := .ok (), alertSend := .ok () }

/-- Shutdown outcomes where every call succeeds. -/
def sdEnvOk : ShutdownEnv := ⟨.ok (), .ok (), .ok ()⟩

/-- Shutdown outcomes where closing the notifier raises. -/
def sdEnvNotifierCloseFail : ShutdownEnv :=
  ⟨.ok (), .exn "session close failed", .ok ()⟩

/-- Collaborator outcomes where everything succeeds except the signal
notification send. -/
def envNotifyFail : Env :=
  { fetch := .ok (some [bar0]), storeData := .ok (), tdi := .ok (),
    boll := .ok (), strat := .ok (some sigBuy), storeSignal := .ok (),
    notifySend := .exn "telegram timeout", alertSend := .ok () }

/-- A concrete scheduled cycle whose duration (7s) exceeds a 5s interval. -/
def cycleOverrun : CycleEnv := ⟨[("BTC/USDT", okEnvNoData)], 7, false⟩

/-! ## Helper lemmas -/

theorem digitChar_mod10_ne_dot (m : Nat) : (Nat.digitChar (m % 10) != '.') = true := by
  have h2 : m % 10 < 10 := Nat.mod_lt _ (by norm_num)
  set k := m % 10 with hk
  interval_cases k <;> decide

/-- `str.strip()` of a string wrapped in the template's leading newline and
trailing indentation is the string itself, provided it starts and ends with a
non-whitespace character. -/
theorem pyStrip_wrap (s : String) (c : Char) (cs : List Char)
    (hhead : s.data = c :: cs) (hc : c.isWhitespace = false)
    (d : Char) (ds : List Char)
    (hlast : s.data.reverse = d :: ds) (hd : d.isWhitespace = false) :
    pyStrip ("\n" ++ s ++ "\n            ") = s := by
  unfold pyStrip
  have hdata : ("\n" ++ s ++ "\n            ").data
      = '\n' :: (s.data ++ "\n            ".data) := by
    simp [String.data_append]
  rw [hdata]
  have h1 : List.dropWhile Char.isWhitespace
      ('\n' :: (s.data ++ "\n            ".data))
      = s.data ++ "\n            ".data := by
    rw [List.dropWhile_cons]
    simp only [show ('\n').isWhitespace = true from rfl, if_true]
    rw [hhead, List.cons_append, List.dropWhile_cons]
    simp [hc]
  rw [h1]
  have h2 : (s.data ++ "\n            ".data).reverse
      = "\n            ".data.reverse ++ s.data.reverse := by
    rw [List.reverse_append]
  rw [h2]
  have h3 : List.dropWhile Char.isWhitespace
      ("\n            ".data.reverse ++ s.data.reverse)
      = List.dropWhile Char.isWhitespace s.data.reverse := by
    rw [List.dropWhile_append]
    simp only [show ("\n            ".data.reverse.dropWhile Char.isWhitespace).isEmpty = true
      from by decide, if_true]
  rw [h3, hlast, List.dropWhile_cons]
  simp only [hd, Bool.false_eq_true, if_false]
  rw [← hlast, List.reverse_reverse]

/-- The emoji of line 129 is always a single non-whitespace character. -/
theorem action_emoji_single (a : String) :
    ∃ e, (action_emoji a).data = [e] ∧ e.isWhitespace = false := by
  unfold action_emoji
  split
  · exact ⟨'🟢', by decide, by decide⟩
  · split
    · exact ⟨'🔴', by decide, by decide⟩
    · exact ⟨'🟡', by decide, by decide⟩

/-- `"{:.4f}"` over the fixed-point model always renders exactly four
characters after the decimal point. -/
theorem decimals_format_money4 (p : Money) :
    decimals_after_dot (format_money4 p) = 4 := by
  unfold decimals_after_dot format_money4 pad4
  simp [String.data_append, List.takeWhile_cons, digitChar_mod10_ne_dot]

/-- `message.strip()` removes exactly the template's fixed affixes when the
last field renders non-empty non-whitespace text (here instantiated at the
absent-`take_profit` rendering `"N/A"`). -/
theorem send_signal_text_strip (symbol : String) (sig : PySignal)
    (price : Money) (ts : Timestamp) (htp : sig.take_profit = none) :
    send_signal_text symbol sig price ts = message_core symbol sig price ts := by
  unfold send_signal_text raw_message
  obtain ⟨e, he, hwe⟩ := action_emoji_single sig.action
  refine pyStrip_wrap _ e ((message_mid symbol sig price ts).data ++
    (sig.take_profit.getD "N/A").data) ?_ hwe
    'A' (['/', 'N'] ++ ((message_mid symbol sig price ts).data.reverse ++ [e]))
    ?_ (by decide)
  · simp [message_core, String.data_append, he]
  · simp [message_core, String.data_append, he, htp, List.reverse_append]

/-- The pipeline boundary returns normally whenever the best-effort error alert
in its `except` clause does not itself raise (whatever the other collaborators
do). -/
theorem collect_fst_ok (now : Timestamp) (env : Env) (s : String) (m : Nat)
    (h : env.alertSend = .ok ()) :
    (collect_and_analyze_data now env s m).1 = .ok () := by
  obtain ⟨fetch, storeData, tdi, boll, strat, storeSignal, notifySend, alertSend⟩ := env
  dsimp only at h
  subst h
  unfold collect_and_analyze_data error_boundary
  rcases fetch with (_ | data) | e
  · rfl
  · dsimp only
    split
    · rfl
    · rcases storeData with _ | e1 <;> rcases tdi with _ | e2 <;>
        rcases boll with _ | e3 <;> rcases strat with (_ | sg) | e4 <;> rfl
  · rfl

/-- A fetch exception is logged together with the symbol, whatever the alert
outcome. -/
theorem collect_logs_fetch_exn (now : Timestamp) (env : Env) (s : String)
    (m : Nat) (e : String) (hf : env.fetch = .exn e) :
    Ev.logErrorFor s e ∈ (collect_and_analyze_data now env s m).2 := by
  unfold collect_and_analyze_data error_boundary
  rw [hf]
  rcases env.alertSend with _ | e2 <;> simp

/-- When every symbol's error alert would succeed, the cycle completes
normally, covers every configured symbol in order, and each symbol's trace in
the cycle contains all events of that symbol's pipeline run. -/
theorem cycle_ok_of_alerts (now : Timestamp) (m : Nat)
    (envs : List (String × Env))
    (h : ∀ p ∈ envs, p.2.alertSend = .ok ()) :
    (run_analysis_cycle now m envs).1 = .ok () ∧
    (run_analysis_cycle now m envs).2.map Prod.fst = envs.map Prod.fst ∧
    ∀ p ∈ envs, ∃ tr, (p.1, tr) ∈ (run_analysis_cycle now m envs).2 ∧
      ∀ ev ∈ (collect_and_analyze_data now p.2 p.1 m).2, ev ∈ tr := by
  induction envs with
  | nil => exact ⟨rfl, rfl, by simp⟩
  | cons p rest ih =>
    obtain ⟨s, env⟩ := p
    have h1 : env.alertSend = .ok () := h _ (List.mem_cons_self _ _)
    obtain ⟨ih1, ih2, ih3⟩ := ih (fun q hq => h q (List.mem_cons_of_mem _ hq))
    have hc := collect_fst_ok now env s m h1
    unfold run_analysis_cycle
    rcases hcc : collect_and_analyze_data now env s m with ⟨r, tr⟩
    rw [hcc] at hc
    dsimp only at hc
    subst hc
    refine ⟨ih1, by simpa using ih2, ?_⟩
    intro q hq
    rcases List.mem_cons.mp hq with rfl | hq'
    · exact ⟨tr ++ [Ev.sleepBetweenSymbols], by simp, by
        intro ev hev
        rw [hcc] at hev
        simp [hev]⟩
    · obtain ⟨tr', htr', hsub⟩ := ih3 q hq'
      exact ⟨tr', by simp [htr'], hsub⟩

/-- Below-minimum (or absent) data short-circuits the pipeline to a single
warning. -/
theorem collect_below_min (now : Timestamp) (env : Env) (s : String) (m : Nat)
    (hf : env.fetch = .ok none ∨ ∃ d, env.fetch = .ok (some d) ∧ d.length < m) :
    collect_and_analyze_data now env s m =
      (.ok (), [Ev.fetchCall, Ev.warnInsufficient s]) := by
  unfold collect_and_analyze_data
  rcases hf with hf | ⟨d, hf, hl⟩ <;> rw [hf]
  simp [hl]

/-! ## Claim theorems -/

/-- Claim C7: for every signal, the notification text is the fixed template:
the emoji is 🟢 for BUY, 🔴 for SELL and 🟡 otherwise; the price renders with
exactly 4 decimal places; and each of the TDI, Bollinger, stop-loss and
take-profit sub-fields renders as the literal "N/A" when absent. -/
theorem c7_notification_template (symbol : String) (sig : PySignal)
    (price : Money) (ts : Timestamp)
    (htdi : sig.tdi_signal = none) (hboll : sig.bollinger_signal = none)
    (hsl : sig.stop_loss = none) (htp : sig.take_profit = none) :
    send_signal_text symbol sig price ts =
      action_emoji sig.action ++ " **" ++ sig.action ++ " SIGNAL**\n📊 Symbol: " ++
        symbol ++ "\n💰 Price: $" ++ format_money4 price ++ "\n⏰ Time: " ++
        strftime_ymd_hms ts ++ "\n🎯 Confidence: " ++ format_pct2 sig.confidence ++
        "%\n📈 Strategy: " ++ sig.strategy_name ++
        "\n\n**Indicator Analysis:**\n• TDI: " ++ "N/A" ++
        "\n• Bollinger: " ++ "N/A" ++
        "\n\n**Risk Management:**\n• Stop Loss: $" ++ "N/A" ++
        "\n• Take Profit: $" ++ "N/A" ∧
    action_emoji "BUY" = "🟢" ∧ action_emoji "SELL" = "🔴" ∧
    (sig.action ≠ "BUY" → sig.action ≠ "SELL" → action_emoji sig.action = "🟡") ∧
    decimals_after_dot (format_money4 price) = 4 := by
  refine ⟨?_, by decide, by decide, ?_, decimals_format_money4 price⟩
  · rw [send_signal_text_strip symbol sig price ts htp]
    apply String.ext
    simp [message_core, message_mid, String.data_append, htdi, hboll, hsl, htp]
  · intro h1 h2
    simp [action_emoji, h1, h2]

/-- Witness for C7: the template evaluated at a concrete BUY signal with all
optional fields absent. -/
theorem c7_notification_template_witness :
    sigBuy.tdi_signal = none ∧ sigBuy.bollinger_signal = none ∧
    sigBuy.stop_loss = none ∧ sigBuy.take_profit = none ∧
    send_signal_text "BTC/USDT" sigBuy 1234567 t0 =
      "🟢 **BUY SIGNAL**\n📊 Symbol: BTC/USDT\n💰 Price: $123.4567\n⏰ Time: 2026-10-12 01:02:03\n🎯 Confidence: 72.50%\n📈 Strategy: ConsolidatedStrategy\n\n**Indicator Analysis:**\n• TDI: N/A\n• Bollinger: N/A\n\n**Risk Management:**\n• Stop Loss: $N/A\n• Take Profit: $N/A" ∧
    decimals_after_dot (format_money4 1234567) = 4 :=
  ⟨rfl, rfl, rfl, rfl,
    ((c7_notification_template "BTC/USDT" sigBuy 1234567 t0 rfl rfl rfl rfl).1).trans
      (by decide),
    (c7_notification_template "BTC/USDT" sigBuy 1234567 t0 rfl rfl rfl rfl).2.2.2.2⟩

/-- Claim C8: signal-notification formatting is deterministic — for identical
symbol, signal, price and timestamp inputs the produced notification (and its
text) is byte-identical, independent of the wall-clock time of sending or any
other state. -/
theorem c8_notification_deterministic (now1 now2 : Timestamp) (env : Env)
    (symbol : String) (sig : PySignal) (price : Money) (ts : Timestamp) :
    send_signal_notification now1 env symbol sig price ts =
      send_signal_notification now2 env symbol sig price ts := rfl

/-- Claim C1 counterexample: with a fetch failure for "ETH/USDT" whose
best-effort error alert also raises, `collect_and_analyze_data` does not
return normally, and the cycle never reaches the later symbol "BTC/USDT". -/
theorem c1_counterexample :
    (collect_and_analyze_data t0 envFetchAlertFail "ETH/USDT" 50).1 =
      .exn "telegram down" ∧
    (run_analysis_cycle t0 50
      [("ETH/USDT", envFetchAlertFail), ("BTC/USDT", okEnvNoData)]).2.map
        Prod.fst = ["ETH/USDT"] := by decide

/-- Claim C1 (amended): every collaborator exception raised at a pipeline step
is caught at the boundary and logged with the symbol; provided the best-effort
error alert in the `except` clause does not itself raise,
`collect_and_analyze_data` returns normally for every symbol, so a failure for
one symbol never prevents the pipeline from running for every later symbol of
the same cycle. -/
theorem c1_fault_isolation (now : Timestamp) (m : Nat)
    (envs : List (String × Env))
    (h : ∀ p ∈ envs, p.2.alertSend = .ok ()) :
    (run_analysis_cycle now m envs).1 = .ok () ∧
    (run_analysis_cycle now m envs).2.map Prod.fst = envs.map Prod.fst ∧
    ∀ p ∈ envs, ∀ e, p.2.fetch = .exn e →
      ∃ tr, (p.1, tr) ∈ (run_analysis_cycle now m envs).2 ∧
        Ev.logErrorFor p.1 e ∈ tr := by
  obtain ⟨h1, h2, h3⟩ := cycle_ok_of_alerts now m envs h
  refine ⟨h1, h2, ?_⟩
  intro p hp e hf
  obtain ⟨tr, htr, hsub⟩ := h3 p hp
  exact ⟨tr, htr, hsub _ (collect_logs_fetch_exn now p.2 p.1 m e hf)⟩

/-- Witness for C1 (amended): a fetch failure for "ETH/USDT" with a working
alert is logged and isolated, and "BTC/USDT" still runs in the same cycle. -/
theorem c1_fault_isolation_witness :
    (∀ p ∈ [("ETH/USDT", envFetchFailAlertOk), ("BTC/USDT", okEnvNoData)],
      (Prod.snd p).alertSend = .ok ()) ∧
    (run_analysis_cycle t0 50
      [("ETH/USDT", envFetchFailAlertOk), ("BTC/USDT", okEnvNoData)]).1 = .ok () ∧
    (run_analysis_cycle t0 50
      [("ETH/USDT", envFetchFailAlertOk), ("BTC/USDT", okEnvNoData)]).2.map
        Prod.fst = ["ETH/USDT", "BTC/USDT"] ∧
    ∃ tr, ("ETH/USDT", tr) ∈
        (run_analysis_cycle t0 50
          [("ETH/USDT", envFetchFailAlertOk), ("BTC/USDT", okEnvNoData)]).2 ∧
      Ev.logErrorFor "ETH/USDT" "rate limited" ∈ tr := by
  have h := c1_fault_isolation t0 50
    [("ETH/USDT", envFetchFailAlertOk), ("BTC/USDT", okEnvNoData)] (by decide)
  exact ⟨by decide, h.1, h.2.1.trans (by decide),
    h.2.2 ("ETH/USDT", envFetchFailAlertOk) (by decide) "rate limited" rfl⟩

/-- Claim C2 counterexample: the fetched series is non-null with length at
least the minimum and the strategy returns a signal, yet no notification is
dispatched, because the `store_signal` call raises inside `handle_signal`'s
single `try` block. -/
theorem c2_counterexample :
    envStoreSignalFail.fetch = .ok (some [bar0]) ∧
    1 ≤ ([bar0] : List MarketBar).length ∧
    envStoreSignalFail.strat = .ok (some sigBuy) ∧
    countStoreSignal
      (collect_and_analyze_data t0 envStoreSignalFail "BTC/USDT" 1).2 = 1 ∧
    countNotify
      (collect_and_analyze_data t0 envStoreSignalFail "BTC/USDT" 1).2 = 0 := by
  decide

/-- Claim C2 (amended): when the configured minimum is at least 1 and the
persist, indicator, signal-store and notification-send collaborator calls
succeed, a signal is dispatched (one `store_signal` call and one notification)
iff the fetched series is non-null, its length is at least the minimum, and
the strategy returns a signal; and when the fetch result is null or shorter
than the minimum, exactly one warning is logged and zero calls to the data
store or the notifier occur — no persistence, no indicator or strategy
invocation, no notification, no alert. -/
theorem c2_dispatch_iff (now : Timestamp) (env : Env) (s : String) (m : Nat)
    (hm : 1 ≤ m)
    (hsd : env.storeData = .ok ()) (htdi : env.tdi = .ok ())
    (hboll : env.boll = .ok ()) (hss : env.storeSignal = .ok ())
    (hns : env.notifySend = .ok ()) :
    (countStoreSignal (collect_and_analyze_data now env s m).2 = 1 ∧
        countNotify (collect_and_analyze_data now env s m).2 = 1 ↔
      ∃ d, env.fetch = .ok (some d) ∧ m ≤ d.length ∧
        ∃ sg, env.strat = .ok (some sg)) ∧
    ((env.fetch = .ok none ∨ ∃ d, env.fetch = .ok (some d) ∧ d.length < m) →
      countWarn (collect_and_analyze_data now env s m).2 = 1 ∧
      countStoreData (collect_and_analyze_data now env s m).2 = 0 ∧
      countIndicatorStrategy (collect_and_analyze_data now env s m).2 = 0 ∧
      countStoreSignal (collect_and_analyze_data now env s m).2 = 0 ∧
      countNotify (collect_and_analyze_data now env s m).2 = 0 ∧
      countAlert (collect_and_analyze_data now env s m).2 = 0) := by
  constructor
  · obtain ⟨fetch, storeData, tdi, boll, strat, storeSignal, notifySend, alertSend⟩ := env
    dsimp only at hsd htdi hboll hss hns ⊢
    subst hsd htdi hboll hss hns
    unfold collect_and_analyze_data error_boundary
    rcases fetch with (_ | d) | e
    · simp [countStoreSignal, countNotify, List.countP_cons]
    · dsimp only
      by_cases hl : d.length < m
      · rw [if_pos hl]
        simp only [countStoreSignal, countNotify, List.countP_cons, List.countP_nil]
        constructor
        · rintro ⟨h1, _⟩; simp at h1
        · rintro ⟨d', hd', hlen, _⟩
          obtain rfl : d' = d := by simpa using hd'.symm
          omega
      · rw [if_neg hl]
        rcases strat with (_ | sg) | e4
        · simp [countStoreSignal, countNotify, List.countP_cons]
        · have hd : d ≠ [] := by
            intro hnil
            rw [hnil] at hl
            simp at hl
            omega
          rcases hgl : d.getLast? with _ | bar
          · exact absurd (List.getLast?_eq_none_iff.mp hgl) hd
          · unfold handle_signal send_signal_notification
            rw [hgl]
            simp only [countStoreSignal, countNotify, List.countP_append,
              List.countP_cons, List.countP_nil]
            constructor
            · intro
              exact ⟨d, rfl, by omega, sg, rfl⟩
            · intro
              constructor <;> rfl
        · rcases alertSend with _ | e5 <;>
            simp [countStoreSignal, countNotify, List.countP_cons]
    · rcases alertSend with _ | e2 <;>
        simp [countStoreSignal, countNotify, List.countP_cons]
  · intro hcond
    rw [collect_below_min now env s m hcond]
    simp [countWarn, countStoreData, countIndicatorStrategy, countStoreSignal,
      countNotify, countAlert, List.countP_cons]

/-- Witness for C2 (amended): with every collaborator succeeding, a one-bar
series at minimum 1 and a strategy signal dispatch exactly one store and one
notification; with no data fetched, one warning and zero store/notifier
calls. -/
theorem c2_dispatch_iff_witness :
    1 ≤ 1 ∧ okEnvSignal.storeData = .ok () ∧ okEnvSignal.tdi = .ok () ∧
    okEnvSignal.boll = .ok () ∧ okEnvSignal.storeSignal = .ok () ∧
    okEnvSignal.notifySend = .ok () ∧
    (countStoreSignal (collect_and_analyze_data t0 okEnvSignal "BTC/USDT" 1).2 = 1 ∧
      countNotify (collect_and_analyze_data t0 okEnvSignal "BTC/USDT" 1).2 = 1) ∧
    (countWarn (collect_and_analyze_data t0 okEnvNoData "BTC/USDT" 1).2 = 1 ∧
      countStoreData (collect_and_analyze_data t0 okEnvNoData "BTC/USDT" 1).2 = 0 ∧
      countIndicatorStrategy (collect_and_analyze_data t0 okEnvNoData "BTC/USDT" 1).2 = 0 ∧
      countStoreSignal (collect_and_analyze_data t0 okEnvNoData "BTC/USDT" 1).2 = 0 ∧
      countNotify (collect_and_analyze_data t0 okEnvNoData "BTC/USDT" 1).2 = 0 ∧
      countAlert (collect_and_analyze_data t0 okEnvNoData "BTC/USDT" 1).2 = 0) :=
  ⟨by decide, rfl, rfl, rfl, rfl, rfl,
    (c2_dispatch_iff t0 okEnvSignal "BTC/USDT" 1 (by decide)
      rfl rfl rfl rfl rfl).1.mpr ⟨[bar0], rfl, by decide, sigBuy, rfl⟩,
    (c2_dispatch_iff t0 okEnvNoData "BTC/USDT" 1 (by decide)
      rfl rfl rfl rfl rfl).2 (Or.inl rfl)⟩

/-- Claim C4 counterexample: a persistence failure (`store_signal` raising)
blocks the notification — one store attempt, zero notifications — because both
actions share `handle_signal`'s single `try` block. -/
theorem c4_counterexample :
    envStoreSignalFail.storeSignal = .exn "db down" ∧
    countStoreSignal
      (handle_signal t0 envStoreSignalFail "BTC/USDT" sigBuy [bar0]) = 1 ∧
    countNotify
      (handle_signal t0 envStoreSignalFail "BTC/USDT" sigBuy [bar0]) = 0 := by
  decide

/-- Claim C4 (amended): in signal dispatch, persistence strictly precedes
notification: a notification failure never blocks persistence (the store call
has already happened and the notification failure is caught and logged inside
the notification sender), but a persistence failure skips the notification;
each failure is logged. -/
theorem c4_dispatch_ordering (now : Timestamp) (env : Env) (s : String)
    (sg : PySignal) (data : List MarketBar) (bar : MarketBar)
    (hgl : data.getLast? = some bar) :
    (∀ e, env.notifySend = .exn e → env.storeSignal = .ok () →
      countStoreSignal (handle_signal now env s sg data) = 1 ∧
      countNotify (handle_signal now env s sg data) = 1 ∧
      Ev.logNotifyError e ∈ handle_signal now env s sg data) ∧
    (∀ e, env.storeSignal = .exn e →
      countStoreSignal (handle_signal now env s sg data) = 1 ∧
      countNotify (handle_signal now env s sg data) = 0 ∧
      Ev.logHandleError s e ∈ handle_signal now env s sg data) := by
  constructor
  · intro e hne hse
    unfold handle_signal send_signal_notification
    rw [hgl, hse, hne]
    refine ⟨?_, ?_, ?_⟩ <;>
      simp [countStoreSignal, countNotify, List.countP_cons]
  · intro e hse
    unfold handle_signal
    rw [hgl, hse]
    refine ⟨?_, ?_, ?_⟩ <;>
      simp [countStoreSignal, countNotify, List.countP_cons]

/-- Witness for C4 (amended): with a failing notification send, the store call
still happens and the notifier failure is logged independently. -/
theorem c4_dispatch_ordering_witness :
    ([bar0] : List MarketBar).getLast? = some bar0 ∧
    envNotifyFail.notifySend = .exn "telegram timeout" ∧
    envNotifyFail.storeSignal = .ok () ∧
    (countStoreSignal (handle_signal t0 envNotifyFail "BTC/USDT" sigBuy [bar0]) = 1 ∧
      countNotify (handle_signal t0 envNotifyFail "BTC/USDT" sigBuy [bar0]) = 1 ∧
      Ev.logNotifyError "telegram timeout" ∈
        handle_signal t0 envNotifyFail "BTC/USDT" sigBuy [bar0]) :=
  ⟨rfl, rfl, rfl,
    (c4_dispatch_ordering t0 envNotifyFail "BTC/USDT" sigBuy [bar0] bar0 rfl).1
      "telegram timeout" rfl rfl⟩

/-- Claim C3 counterexample: when closing the Notifier raises, the DataStore
close is never attempted — the failure in closing one resource prevents
attempting to close the other, because all three awaits share one `try`. -/
theorem c3_counterexample :
    sdEnvNotifierCloseFail.notifierClose = .exn "session close failed" ∧
    (shutdown sdEnvNotifierCloseFail t0).1 = .ok () ∧
    countNotifierClose (shutdown sdEnvNotifierCloseFail t0).2 = 1 ∧
    countStoreClose (shutdown sdEnvNotifierCloseFail t0).2 = 0 := by decide

/-- Claim C3 (amended): every `shutdown()` invocation attempts exactly one
shutdown notification and never escalates a failure (it always returns
normally, logging the first failure); the notifier close is attempted only
when the notification succeeded, and the data-store close only when the
notifier close also succeeded — the first failure aborts the remaining close
attempts, so a notifier-close failure prevents the data-store close. -/
theorem c3_shutdown_sequence (env : ShutdownEnv) (now : Timestamp) :
    (shutdown env now).1 = .ok () ∧
    countNotifyStop (shutdown env now).2 = 1 ∧
    (env.notifyStop = .ok () → countNotifierClose (shutdown env now).2 = 1) ∧
    (env.notifyStop = .ok () → env.notifierClose = .ok () →
      countStoreClose (shutdown env now).2 = 1) ∧
    (∀ e, env.notifyStop = .exn e →
      SEv.logShutdownError e ∈ (shutdown env now).2 ∧
      countNotifierClose (shutdown env now).2 = 0) ∧
    (∀ e, env.notifyStop = .ok () → env.notifierClose = .exn e →
      SEv.logShutdownError e ∈ (shutdown env now).2) ∧
    (∀ e, env.notifyStop = .ok () → env.notifierClose = .ok () →
      env.storeClose = .exn e →
      SEv.logShutdownError e ∈ (shutdown env now).2) ∧
    (∀ e, env.notifierClose = .exn e →
      countStoreClose (shutdown env now).2 = 0) := by
  obtain ⟨notifyStop, notifierClose, storeClose⟩ := env
  dsimp only
  rcases notifyStop with _ | e1 <;> rcases notifierClose with _ | e2 <;>
    rcases storeClose with _ | e3 <;>
    simp [shutdown, countNotifyStop, countNotifierClose, countStoreClose,
      List.countP_cons]

/-- Witness for C3 (amended): with all collaborators succeeding, one
notification attempt, one notifier close and one store close. -/
theorem c3_shutdown_sequence_witness :
    sdEnvOk.notifyStop = .ok () ∧ sdEnvOk.notifierClose = .ok () ∧
    (shutdown sdEnvOk t0).1 = .ok () ∧
    countNotifyStop (shutdown sdEnvOk t0).2 = 1 ∧
    countNotifierClose (shutdown sdEnvOk t0).2 = 1 ∧
    countStoreClose (shutdown sdEnvOk t0).2 = 1 :=
  ⟨rfl, rfl, (c3_shutdown_sequence sdEnvOk t0).1,
    (c3_shutdown_sequence sdEnvOk t0).2.1,
    (c3_shutdown_sequence sdEnvOk t0).2.2.1 rfl,
    (c3_shutdown_sequence sdEnvOk t0).2.2.2.1 rfl rfl⟩

/-- Claim C9 counterexample: `shutdown()` has no completed-shutdown guard, so a
second invocation sends a second shutdown notification and closes both
resources again. -/
theorem c9_counterexample :
    countNotifyStop (twoShutdowns sdEnvOk t0 t1) = 2 ∧
    countNotifierClose (twoShutdowns sdEnvOk t0 t1) = 2 ∧
    countStoreClose (twoShutdowns sdEnvOk t0 t1) = 2 := by decide

/-- Claim C9 (amended): shutdown is not idempotent — a second shutdown request
after a completed shutdown repeats the entire sequence, attempting another
shutdown notification and (when the preceding steps succeed) another close of
each resource; only the running-flag write is idempotent. -/
theorem c9_shutdown_not_idempotent (env : ShutdownEnv) (now1 now2 : Timestamp) :
    countNotifyStop (twoShutdowns env now1 now2) = 2 ∧
    (shutdownFrom false env now2).1 = false ∧
    (env.notifyStop = .ok () →
      countNotifierClose (twoShutdowns env now1 now2) = 2) ∧
    (env.notifyStop = .ok () → env.notifierClose = .ok () →
      countStoreClose (twoShutdowns env now1 now2) = 2) := by
  obtain ⟨notifyStop, notifierClose, storeClose⟩ := env
  dsimp only
  rcases notifyStop with _ | e1 <;> rcases notifierClose with _ | e2 <;>
    rcases storeClose with _ | e3 <;>
    simp [twoShutdowns, shutdownFrom, shutdown, countNotifyStop,
      countNotifierClose, countStoreClose, List.countP_append, List.countP_cons]

/-- Witness for C9 (amended): two successive shutdowns with succeeding
collaborators attempt two notifications and two closes of each resource. -/
theorem c9_shutdown_not_idempotent_witness :
    sdEnvOk.notifyStop = .ok () ∧ sdEnvOk.notifierClose = .ok () ∧
    countNotifyStop (twoShutdowns sdEnvOk t0 t1) = 2 ∧
    (shutdownFrom false sdEnvOk t1).1 = false ∧
    countNotifierClose (twoShutdowns sdEnvOk t0 t1) = 2 ∧
    countStoreClose (twoShutdowns sdEnvOk t0 t1) = 2 :=
  ⟨rfl, rfl, (c9_shutdown_not_idempotent sdEnvOk t0 t1).1,
    (c9_shutdown_not_idempotent sdEnvOk t0 t1).2.1,
    (c9_shutdown_not_idempotent sdEnvOk t0 t1).2.2.1 rfl,
    (c9_shutdown_not_idempotent sdEnvOk t0 t1).2.2.2 rfl rfl⟩

/-- Claim C5: for every completed cycle the end-of-cycle pause equals
`max(0, analysis_interval - elapsed)`; when the elapsed duration is at least
the interval the sleep is exactly 0 and the overrun warning is logged exactly
once for that cycle; and no cycle or symbol is skipped — every scheduled cycle
produces an outcome covering all its configured symbols in order. -/
theorem c5_cycle_pacing (now : Timestamp) (interval : ℚ) (m : Nat)
    (cycles : List CycleEnv)
    (h : ∀ ce ∈ cycles, (∀ p ∈ ce.envs, p.2.alertSend = .ok ()) ∧
      ce.stopDuring = false) :
    (runFrom now interval m true cycles).1 = .ok () ∧
    (runFrom now interval m true cycles).2.map CycleOut.sleepFor =
      cycles.map (fun ce => max 0 (interval - ce.elapsed)) ∧
    (runFrom now interval m true cycles).2.map CycleOut.overrunWarns =
      cycles.map (fun ce => if interval ≤ ce.elapsed then 1 else 0) ∧
    (runFrom now interval m true cycles).2.map (fun o => o.symbols.map Prod.fst) =
      cycles.map (fun ce => ce.envs.map Prod.fst) ∧
    ∀ o ∈ (runFrom now interval m true cycles).2,
      o.overrunWarns = 1 → o.sleepFor = 0 := by
  induction cycles with
  | nil => exact ⟨rfl, rfl, rfl, rfl, by intro o ho; simp [runFrom] at ho⟩
  | cons ce rest ih =>
    obtain ⟨halerts, hstop⟩ := h ce (List.mem_cons_self _ _)
    obtain ⟨ih1, ih2, ih3, ih4, ih5⟩ :=
      ih (fun c hc => h c (List.mem_cons_of_mem _ hc))
    obtain ⟨hok, hsym, -⟩ := cycle_ok_of_alerts now m ce.envs halerts
    rcases hcc : run_analysis_cycle now m ce.envs with ⟨r, trs⟩
    rw [hcc] at hok hsym
    dsimp only at hok hsym
    subst hok
    unfold runFrom
    rw [hcc, hstop]
    dsimp only
    by_cases hlt : ce.elapsed < interval
    · have hpos : 0 < max 0 (interval - ce.elapsed) :=
        lt_max_iff.mpr (Or.inr (by linarith))
      rw [if_pos hpos]
      refine ⟨ih1, ?_, ?_, ?_, ?_⟩
      · simp [ih2]
      · simp [if_neg (not_le.mpr hlt), ih3]
      · simp [ih4, hsym]
      · intro o ho
        rcases List.mem_cons.mp ho with rfl | ho'
        · intro h01
          exact absurd h01 (by simp)
        · exact ih5 o ho'
    · have hle : interval ≤ ce.elapsed := not_lt.mp hlt
      have hst : max 0 (interval - ce.elapsed) = 0 := max_eq_left (by linarith)
      rw [hst, if_neg (lt_irrefl 0)]
      refine ⟨ih1, ?_, ?_, ?_, ?_⟩
      · simp [ih2, hst]
      · simp [if_pos hle, ih3]
      · simp [ih4, hsym]
      · intro o ho
        rcases List.mem_cons.mp ho with rfl | ho'
        · intro
          rfl
        · exact ih5 o ho'

/-- Witness for C5: a single cycle lasting 7s against a 5s interval sleeps
exactly 0, warns exactly once, and still covers its symbol. -/
theorem c5_cycle_pacing_witness :
    (∀ ce ∈ [cycleOverrun], (∀ p ∈ ce.envs, p.2.alertSend = .ok ()) ∧
      ce.stopDuring = false) ∧
    (runFrom t0 5 1 true [cycleOverrun]).1 = .ok () ∧
    (runFrom t0 5 1 true [cycleOverrun]).2.map CycleOut.sleepFor = [0] ∧
    (runFrom t0 5 1 true [cycleOverrun]).2.map CycleOut.overrunWarns = [1] ∧
    (runFrom t0 5 1 true [cycleOverrun]).2.map
      (fun o => o.symbols.map Prod.fst) = [["BTC/USDT"]] := by
  have h := c5_cycle_pacing t0 5 1 [cycleOverrun] (by decide)
  refine ⟨by decide, h.1, h.2.1.trans ?_, h.2.2.1.trans ?_, h.2.2.2.1.trans (by decide)⟩
  · show [max 0 ((5:ℚ) - cycleOverrun.elapsed)] = [0]
    rw [show ((5:ℚ) - cycleOverrun.elapsed) = -2 by norm_num [cycleOverrun],
      max_eq_left (by norm_num)]
  · show [if (5:ℚ) ≤ cycleOverrun.elapsed then (1:Nat) else 0] = [1]
    rw [if_pos (by norm_num [cycleOverrun])]

/-- Claim C6 (code evidence): the installed interrupt handler does not merely
set the running flag — it prints, schedules a fire-and-forget shutdown task
(only when the closed-over `bot` is already assigned) and then calls
`sys.exit(0)`, which terminates immediately rather than at the next cycle
boundary; it never assigns the running flag synchronously at all. -/
theorem c6_handler_actions :
    signal_handler true 2 =
      [HandlerAct.printReceived 2, HandlerAct.scheduleShutdownTask,
        HandlerAct.sysExit 0] ∧
    HandlerAct.sysExit 0 ∈ signal_handler true 2 ∧
    HandlerAct.setRunningFlagFalse ∉ signal_handler true 2 ∧
    HandlerAct.scheduleShutdownTask ∉ signal_handler false 15 ∧
    HandlerAct.sysExit 0 ∈ signal_handler false 15 := by decide

/-- Claim C10: neither fetcher ever raises — any exchange exception yields
`None` (all exception kinds collapse to the same `None`), and a successful
fetch yields the DataFrame with exactly the columns open, high, low, close,
volume, indexed by the parsed millisecond timestamps, identically in
`BinanceClient.get_ohlcv` and `DataFetcher.get_data`. -/
theorem c10_fetchers_never_raise :
    (∀ e, BinanceClient.get_ohlcv (.exn e) = none) ∧
    (∀ e1 e2, BinanceClient.get_ohlcv (.exn e1) = BinanceClient.get_ohlcv (.exn e2)) ∧
    (∀ rows, BinanceClient.get_ohlcv (.ok rows) =
      some ⟨rows.map (fun b => pd_to_datetime_ms b.timestamp_ms),
        ["open", "high", "low", "close", "volume"],
        rows.map (fun b => [b.open_, b.high, b.low, b.close, b.volume])⟩) ∧
    (∀ rows, (BinanceClient.get_ohlcv (.ok rows)).map PdDataFrame.columns =
      some ["open", "high", "low", "close", "volume"]) ∧
    (∀ e, DataFetcher.get_data (.exn e) = none) ∧
    (∀ rows, DataFetcher.get_data (.ok rows) = BinanceClient.get_ohlcv (.ok rows)) :=
  ⟨fun _ => rfl, fun _ _ => rfl, fun _ => rfl, fun _ => rfl, fun _ => rfl,
    fun _ => rfl⟩
